import Mathlib

/-!
Verification of the Query Workspace Engine (`src/app/page.tsx`,
`src/app/components/QueryEditor.tsx`).

The TypeScript source is shallowly embedded: JavaScript runtime cell values
become the inductive `Value` (objects carry their `JSON.stringify` text;
JavaScript doubles are modelled as integers, which covers every value the
properties under study exercise), React tab state becomes the `QueryTab`
structure, and each handler's synchronous logic becomes a pure function from
the pre-call state (plus the outcome of any awaited executor calls) to the
post-call state together with the executor calls it issued.
-/

namespace Dbms

/-- A JavaScript runtime value as it can appear in a result cell.
`vjson j` is an object value carrying its `JSON.stringify` text `j`. -/
inductive Value where
  | vnull
  | vundefined
  | vbool (b : Bool)
  | vnum (n : Int)
  | vstr (s : String)
  | vjson (j : String)
deriving DecidableEq, Repr

/-- Model of `val.replace(/'/g, "''")`: double every single quote (char-level model of
the global single-character regex replacement). -/
def escQuotes (s : String) : String :=
  String.mk (s.data.flatMap fun c => if c = '\'' then [c, c] else [c])

/-- Model of `String.prototype.trim` at the character level. -/
def trimChars (s : String) : String :=
  String.mk (((s.data.dropWhile Char.isWhitespace).reverse.dropWhile
    Char.isWhitespace).reverse)

/-- Model of `String.prototype.toUpperCase` (ASCII range). -/
def upperStr (s : String) : String :=
  String.mk (s.data.map Char.toUpper)

/-- Model of `String.prototype.toLowerCase` (ASCII range). -/
def lowerStr (s : String) : String :=
  String.mk (s.data.map Char.toLower)

/-- Whether `p` is a leading segment of the second list. -/
def leadsList : List Char → List Char → Bool
  | [], _ => true
  | _ :: _, [] => false
  | p :: ps, c :: cs => p = c && leadsList ps cs

/-- Model of `String.prototype.startsWith`. -/
def startsWithStr (s pat : String) : Bool :=
  leadsList pat.data s.data

/-- Whether `pat` occurs inside the list. -/
def containsList (pat : List Char) : List Char → Bool
  | [] => leadsList pat []
  | c :: t => leadsList pat (c :: t) || containsList pat t

/-- Model of `String.prototype.includes`. -/
def containsSub (s pat : String) : Bool :=
  containsList pat.data s.data

/-- Accumulate a decimal digit string; `none` on a non-digit. -/
def digitsValAux (acc : Nat) : List Char → Option Nat
  | [] => some acc
  | c :: t =>
    if '0' ≤ c ∧ c ≤ '9' then digitsValAux (acc * 10 + (c.toNat - 48)) t
    else none

/-- Value of a nonempty decimal digit string. -/
def digitsVal : List Char → Option Nat
  | [] => none
  | c :: t => digitsValAux 0 (c :: t)

/-- Lexicographic `<` on character lists (JavaScript string `<`). -/
def ltListChar : List Char → List Char → Bool
  | [], [] => false
  | [], _ :: _ => true
  | _ :: _, [] => false
  | a :: as, b :: bs => if a < b then true else if b < a then false else ltListChar as bs

/-- JavaScript `s < t` on strings. -/
def ltStr (s t : String) : Bool :=
  ltListChar s.data t.data

/-- JavaScript `String(v)` (template-literal coercion) on a `Value`.
For an object value this is `"[object Object]"` (plain-object semantics). -/
def jsString : Value → String
  | .vnull => "null"
  | .vundefined => "undefined"
  | .vbool b => if b then "true" else "false"
  | .vnum n => toString n
  | .vstr s => s
  | .vjson _ => "[object Object]"

/-- The integer fragment of JavaScript `Number(string)`: whitespace is
trimmed, the empty string is `0`, an optionally signed digit string is its
value, anything else is `NaN` (`none`). -/
def jsParseNumber (s : String) : Option Int :=
  match (trimChars s).data with
  | [] => some 0
  | '-' :: rest => (digitsVal rest).map (fun n => -(n : Int))
  | '+' :: rest => (digitsVal rest).map (fun n => (n : Int))
  | l => (digitsVal l).map (fun n => (n : Int))

/-- JavaScript `Number(v)` on a `Value` (`none` = `NaN`). -/
def jsNumberOf : Value → Option Int
  | .vnull => some 0
  | .vundefined => none
  | .vbool b => some (if b then 1 else 0)
  | .vnum n => some n
  | .vstr s => jsParseNumber s
  | .vjson _ => none

/-- Embedding of `formatSqlValue` (page.tsx:653-666): runtime value → SQL literal text. -/
def formatSqlValue (val : Value) (dbType : String) : String :=
  match val with
  | .vnull => "NULL"
  | .vbool b =>
      if dbType = "mssql" then (if b then "1" else "0")
      else (if b then "TRUE" else "FALSE")
  | .vnum n => toString n
  | .vstr s => "'" ++ escQuotes s ++ "'"
  | .vjson j => "'" ++ escQuotes j ++ "'"
  | .vundefined => "'" ++ escQuotes (jsString .vundefined) ++ "'"

/-- Embedding of `constructWhereClause` (page.tsx:668-675): full-row equality
predicate.
`row[i]` beyond the row's length is JavaScript `undefined`. -/
def constructWhereClause (row : List Value) (columns : List String)
    (dbType : String) : String :=
  String.intercalate " AND " (columns.enum.map fun p =>
    let i := p.1
    let col := p.2
    let val := row.getD i .vundefined
    if val = .vnull then col ++ " IS NULL"
    else col ++ " = " ++ formatSqlValue val dbType)

end Dbms

namespace Dbms

/-- JavaScript truthiness of a nullable string (`null`/`undefined`/`""` are
falsy). -/
def jsTruthy : Option String → Bool
  | none => false
  | some s => s ≠ ""

/-- JavaScript `a || b` on nullable strings. -/
def jsOrStr (a b : Option String) : Option String :=
  match a with
  | some s => if s = "" then b else some s
  | none => b

structure SortState where
  col : String
  dir : String
deriving DecidableEq, Repr

structure Pagination where
  limit : Int
  offset : Int
  hasMore : Bool
  isLoading : Bool
deriving DecidableEq, Repr

structure ResultSet where
  columns : List String
  rows : List (List Value)
deriving DecidableEq, Repr

structure Connection where
  name : String
  type : String
deriving DecidableEq, Repr

/-- The per-tab state (`QueryTab` in page.tsx). `totalRows = none` means the
field is unset (or `NaN`). -/
structure QueryTab where
  id : String
  title : String
  query : String
  results : Option ResultSet
  error : Option String
  connName : Option String
  isExecuting : Bool
  viewType : String
  tableName : Option String
  schema : Option String
  pagination : Option Pagination
  totalRows : Option Int
  sortState : Option SortState
deriving DecidableEq, Repr

/-- One call handed to the query executor (`invoke("execute_query", ...)`). -/
structure ExecCall where
  name : String
  sql : String
deriving DecidableEq, Repr

/-- Outcome of an awaited executor call. -/
inductive ExecResult where
  | ok (columns : List String) (rows : List (List Value))
  | err (msg : String)
deriving DecidableEq, Repr

/-- The final-statement computation inside `runQuery` (page.tsx:612-622):
auto-limit rewriting of the tab's query text. `connType?` is
`conn?.type` for the connection resolved by name (`none` when missing). -/
def computeFinalSql (autoLimit : Int) (connType? : Option String)
    (query : String) : String :=
  if autoLimit > 0 ∧ startsWithStr (upperStr (trimChars query)) "SELECT" then
    if ¬ containsSub (upperStr query) "LIMIT" ∧ ¬ containsSub (upperStr query) "TOP" then
      if connType? = some "mssql" then
        "SELECT TOP " ++ toString autoLimit ++ " * FROM (" ++ query ++ ") AS subqb"
      else
        trimChars query ++ " LIMIT " ++ toString autoLimit
    else query
  else query

/-- The synchronous part of `runQuery` (page.tsx:602-628), for an
already-looked-up tab: resolve the connection name (`tab.connName ||
activeConnName`, no-op when falsy), mark the tab executing and clear its
error, compute the final SQL, and issue the executor call. `none` means the
function returned before changing any state or issuing any call. -/
def runQueryStep (autoLimit : Int) (connections : List Connection)
    (activeConnName : Option String) (tab : QueryTab) :
    Option (QueryTab × ExecCall) :=
  let targetConnName? := jsOrStr tab.connName activeConnName
  match targetConnName? with
  | none => none
  | some name =>
    if name = "" then none
    else
      let tab' := { tab with isExecuting := true, error := none }
      let conn? := connections.find? (fun c => c.name = name)
      let finalSql := computeFinalSql autoLimit (conn?.map (·.type)) tab.query
      some (tab', ⟨name, finalSql⟩)

/-- Embedding of `constructSelectQuery` (page.tsx:790-801): the
dialect-specific windowed
`SELECT *`. A schema that is absent, empty or `"*"` is not prefixed. -/
def constructSelectQuery (tableName : String) (dbType : String)
    (limit offset : Int) (schema : Option String) : String :=
  let tableRef :=
    match schema with
    | some s => if s ≠ "" ∧ s ≠ "*" then s ++ "." ++ tableName else tableName
    | none => tableName
  if dbType = "mssql" then
    "SELECT * FROM " ++ tableRef ++ " ORDER BY (SELECT NULL) OFFSET "
      ++ toString offset ++ " ROWS FETCH NEXT " ++ toString limit ++ " ROWS ONLY"
  else
    "SELECT * FROM " ++ tableRef ++ " LIMIT " ++ toString limit
      ++ " OFFSET " ++ toString offset

/-- The table-open flow of `handleTableClick` (page.tsx:871-951) after the
existing-tab check: build the new data tab, then run the single `try` block
that first awaits the `SELECT COUNT(*)` and then the windowed select.
`countRes`/`dataRes` are the outcomes the executor would return for those two
calls. Returns the tab as finally installed together with the executor calls
actually issued, in order. -/
def handleTableClickLoad (tableName : String) (currentSchema : Option String)
    (connName : String) (connType : String)
    (countRes dataRes : ExecResult) : QueryTab × List ExecCall :=
  let schemaOk := jsTruthy currentSchema ∧ currentSchema ≠ some "*"
  let tableRef := if schemaOk then (currentSchema.getD "") ++ "." ++ tableName
                  else tableName
  let schemaArg := if schemaOk then currentSchema else none
  let initialQuery := constructSelectQuery tableName connType 50 0 schemaArg
  let newTab : QueryTab :=
    { id := "new", title := tableName, query := initialQuery,
      results := none, error := none, connName := some connName,
      isExecuting := true, viewType := "data", tableName := some tableName,
      schema := schemaArg,
      pagination := some ⟨50, 0, true, true⟩,
      totalRows := none, sortState := none }
  let countQuery := "SELECT COUNT(*) as count FROM " ++ tableRef
  let countCall : ExecCall := ⟨connName, countQuery⟩
  match countRes with
  | .err m =>
    ({ newTab with isExecuting := false, error := some m,
                   pagination := some ⟨50, 0, true, false⟩ }, [countCall])
  | .ok _ crows =>
    let totalRows := jsNumberOf ((crows.getD 0 []).getD 0 .vundefined)
    let dataCall : ExecCall := ⟨connName, initialQuery⟩
    match dataRes with
    | .ok cols rows =>
      ({ newTab with isExecuting := false,
                     results := some ⟨cols, rows⟩,
                     totalRows := totalRows,
                     pagination := some ⟨50, 0, (rows.length : Int) = 50, false⟩ },
       [countCall, dataCall])
    | .err m =>
      ({ newTab with isExecuting := false, error := some m,
                     pagination := some ⟨50, 0, true, false⟩ },
       [countCall, dataCall])

/-- Embedding of `handleLoadMore` (page.tsx:803-853). The first state update
sets
`isLoading` only under the `!isLoading && hasMore` guard; every later read
goes through the stale pre-call snapshot `tab`, exactly as the closure in the
source does. Returns the final tab state and the windowed executor call, if
one was issued. -/
def handleLoadMore (connections : List Connection) (tab : QueryTab)
    (execRes : ExecResult) : QueryTab × Option ExecCall :=
  let tab1 :=
    match tab.pagination with
    | some p =>
      if ¬ p.isLoading ∧ p.hasMore then
        { tab with pagination := some { p with isLoading := true } }
      else tab
    | none => tab
  match tab.pagination with
  | none => (tab1, none)
  | some p =>
    if ¬ (jsTruthy tab.connName ∧ jsTruthy tab.tableName) then (tab1, none)
    else
      match connections.find? (fun c => c.name = tab.connName.getD "") with
      | none =>
        ({ tab1 with
           pagination := tab1.pagination.map (fun q => { q with isLoading := false }) },
         none)
      | some conn =>
        let newOffset := p.offset + p.limit
        let query := constructSelectQuery (tab.tableName.getD "") conn.type
          p.limit newOffset tab.schema
        let call : ExecCall := ⟨tab.connName.getD "", query⟩
        match execRes with
        | .ok cols rows =>
          let results' :=
            match tab1.results with
            | some r => ResultSet.mk r.columns (r.rows ++ rows)
            | none => ResultSet.mk cols rows
          ({ tab1 with results := some results',
                       pagination := some ⟨p.limit, newOffset,
                         (rows.length : Int) = p.limit, false⟩ },
           some call)
        | .err _ =>
          ({ tab1 with
             pagination := tab1.pagination.map (fun q => { q with isLoading := false }) },
           some call)

/-- The type-coercion step of `updateCell` (page.tsx:708-720): infer the new
value from the original cell's runtime type. -/
def coerceNewValue (originalValue newValue : Value) : Value :=
  match originalValue with
  | .vnum _ =>
    match newValue with
    | .vstr s =>
      match jsParseNumber s with
      | some n => if trimChars s = "" then .vnull else .vnum n
      | none => newValue
    | _ => newValue
  | .vbool _ =>
    if lowerStr (jsString newValue) = "true" then .vbool true
    else if lowerStr (jsString newValue) = "false" then .vbool false
    else if newValue = .vstr "1" then .vbool true
    else if newValue = .vstr "0" then .vbool false
    else newValue
  | _ => newValue

/-- Embedding of `updateCell` (page.tsx:692-726): guard on a usable
table/connection, then
synthesize the `UPDATE` statement and hand it to the executor. `none` means
the guard returned without doing anything. -/
def resolveDbType (connections : List Connection) (connName : String) : String :=
  match connections.find? (fun c => c.name = connName) with
  | some c => if c.type = "" then "postgres" else c.type
  | none => "postgres"

/-- The table reference text of `updateCell`/`deleteRow`, where the schema
part is empty for
a falsy schema (page.tsx:699-700). -/
def tableRefOf (schema : Option String) (tableName : String) : String :=
  (match schema with
   | some s => if s = "" then "" else s ++ "."
   | none => "") ++ tableName

def updateCell (connections : List Connection) (tab : QueryTab)
    (row : List Value) (columns : List String) (colIndex : Nat)
    (newValue : Value) : Option ExecCall :=
  if ¬ (jsTruthy tab.tableName ∧ jsTruthy tab.connName) then none
  else
    let connName := tab.connName.getD ""
    let dbType := resolveDbType connections connName
    let tableRef := tableRefOf tab.schema (tab.tableName.getD "")
    let whereClause := constructWhereClause row columns dbType
    let colName := columns.getD colIndex "undefined"
    let originalValue := row.getD colIndex .vundefined
    let finalValue := coerceNewValue originalValue newValue
    let valStr := formatSqlValue finalValue dbType
    some ⟨connName,
      "UPDATE " ++ tableRef ++ " SET " ++ colName ++ " = " ++ valStr
        ++ " WHERE " ++ whereClause⟩

/-- The sort comparator of the `displayRows` sort
(QueryEditor.tsx:408-423), over a fixed column index and direction. -/
def sortCmp (colIdx : Nat) (dir : String) (a b : List Value) : Int :=
  let valA := a.getD colIdx .vundefined
  let valB := b.getD colIdx .vundefined
  if valA = valB then 0
  else if valA = .vnull then 1
  else if valB = .vnull then -1
  else
    match valA, valB with
    | .vnum x, .vnum y => if dir = "asc" then x - y else y - x
    | _, _ =>
      let strA := lowerStr (jsString valA)
      let strB := lowerStr (jsString valB)
      if ltStr strA strB then (if dir = "asc" then -1 else 1)
      else if ltStr strB strA then (if dir = "asc" then 1 else -1)
      else 0

/-- The `displayRows.sort(...)` call at a resolved column index,
modelled as a stable merge sort ordered by the comparator's sign
(ECMAScript `Array.prototype.sort` is specified to be stable). -/
def sortRowsAt (colIdx : Nat) (dir : String)
    (rows : List (List Value)) : List (List Value) :=
  rows.mergeSort (fun a b => sortCmp colIdx dir a b ≤ 0)

/-- The full `displayRows` computation (QueryEditor.tsx:403-425): identity
without a sort state or when the sorted column is not among `columns`. -/
def sortRows (rows : List (List Value)) (columns : List String)
    (sortState : Option SortState) : List (List Value) :=
  match sortState with
  | none => rows
  | some st =>
    match columns.findIdx? (· = st.col) with
    | none => rows
    | some colIdx => sortRowsAt colIdx st.dir rows

/-- Spec-side predicate builder, following the spec's words:
`columns.map(col => val is NULL ? "col IS NULL" : "col = <formatted literal>")
.join(" AND ")` over the column/value pairs. -/
def specWhereClause (row : List Value) (columns : List String)
    (dbType : String) : String :=
  String.intercalate " AND " ((columns.zip row).map fun cv =>
    if cv.2 = .vnull then cv.1 ++ " IS NULL"
    else cv.1 ++ " = " ++ formatSqlValue cv.2 dbType)

/-- Whether the sort key of a row at `colIdx` is a numeric value. -/
def isNumKey (colIdx : Nat) (r : List Value) : Bool :=
  match r.getD colIdx .vundefined with
  | .vnum _ => true
  | _ => false

/-! ## Supporting lemmas -/

theorem enumFrom_map_getD_eq_zip_map (w : Value → String → String) :
    ∀ (cs : List String) (row : List Value) (k : Nat) (fullRow : List Value),
      row.length = cs.length →
      (∀ i, fullRow.getD (k + i) Value.vundefined = row.getD i Value.vundefined) →
      ((cs.enumFrom k).map fun p => w (fullRow.getD p.1 .vundefined) p.2)
        = ((cs.zip row).map fun cv => w cv.2 cv.1)
  | [], _, _, _, _, _ => by simp
  | c :: cs', v :: row', k, fullRow, hlen, hk => by
    simp only [List.enumFrom_cons, List.map_cons, List.zip_cons_cons]
    refine congrArg₂ _ ?_ ?_
    · have h0 := hk 0
      simp only [Nat.add_zero, List.getD_cons_zero] at h0
      rw [h0]
    · refine enumFrom_map_getD_eq_zip_map w cs' row' (k + 1) fullRow
        (by simpa using hlen) (fun i => ?_)
      have := hk (i + 1)
      rw [show k + 1 + i = k + (i + 1) by omega]
      simpa using this

/-! ## Claims -/

/-- C6: for every row and column list of equal length and every dialect, the
predicate builder produces the AND-join, in column order, of `col IS NULL`
for null values and `col = <formatted literal>` otherwise, and on the row
`["Alice", null, 30]` with columns `["name","nickname","age"]` it produces
exactly `name = 'Alice' AND nickname IS NULL AND age = 30`. -/
theorem C6_predicate_builder (row : List Value) (columns : List String)
    (dbType : String) (h : row.length = columns.length) :
    constructWhereClause row columns dbType = specWhereClause row columns dbType ∧
    constructWhereClause [.vstr "Alice", .vnull, .vnum 30]
        ["name", "nickname", "age"] dbType
      = "name = 'Alice' AND nickname IS NULL AND age = 30" := by
  constructor
  · unfold constructWhereClause specWhereClause
    refine congrArg _ ?_
    have := enumFrom_map_getD_eq_zip_map
      (fun val col => if val = .vnull then col ++ " IS NULL"
        else col ++ " = " ++ formatSqlValue val dbType)
      columns row 0 row h (fun i => by simp)
    simpa [List.enum_eq_enumFrom] using this
  · simp [constructWhereClause, formatSqlValue, escQuotes, List.enumFrom,
      String.intercalate]
    rfl

/-- C6 witness at a concrete row/column/dialect instance. -/
theorem C6_predicate_builder_witness :
    constructWhereClause [.vstr "Alice", .vnull, .vnum 30]
        ["name", "nickname", "age"] "postgres"
      = specWhereClause [.vstr "Alice", .vnull, .vnum 30]
        ["name", "nickname", "age"] "postgres" :=
  (C6_predicate_builder [.vstr "Alice", .vnull, .vnum 30]
    ["name", "nickname", "age"] "postgres" (by decide)).1

/-- C7: the value formatter maps null to unquoted `NULL`; booleans to `1`/`0`
under mssql and `TRUE`/`FALSE` under every other dialect; numbers to bare
numeric text; strings to a single-quoted literal with every embedded quote
doubled (`formatValue("O'Brien", postgres) = 'O''Brien'`); and object values
to their JSON text quoted with the same escape. -/
theorem C7_value_formatter (dbType : String) :
    formatSqlValue .vnull dbType = "NULL" ∧
    (∀ b : Bool, formatSqlValue (.vbool b) "mssql" = if b then "1" else "0") ∧
    (dbType ≠ "mssql" → ∀ b : Bool,
       formatSqlValue (.vbool b) dbType = if b then "TRUE" else "FALSE") ∧
    (∀ n : Int, formatSqlValue (.vnum n) dbType = toString n) ∧
    (∀ s : String, formatSqlValue (.vstr s) dbType = "'" ++ escQuotes s ++ "'") ∧
    (∀ j : String, formatSqlValue (.vjson j) dbType = "'" ++ escQuotes j ++ "'") ∧
    formatSqlValue (.vstr "O'Brien") "postgres" = "'O''Brien'" := by
  refine ⟨rfl, fun b => rfl, fun hne b => ?_, fun n => rfl, fun s => rfl,
    fun j => rfl, by decide⟩
  simp [formatSqlValue, hne]

/-- C7 witness: the dialect-independent rules instantiated at mssql (null,
number, string, object) and the boolean rules at both mssql and postgres. -/
theorem C7_value_formatter_witness :
    formatSqlValue .vnull "mssql" = "NULL" ∧
    formatSqlValue (.vnum 42) "mssql" = "42" ∧
    formatSqlValue (.vstr "O'Brien") "mssql" = "'O''Brien'" ∧
    formatSqlValue (.vjson "\x7b\x22a\x22:1\x7d") "mssql"
      = "'\x7b\x22a\x22:1\x7d'" ∧
    formatSqlValue (.vbool false) "mssql" = "0" ∧
    formatSqlValue (.vbool true) "postgres" = "TRUE" ∧
    formatSqlValue (.vstr "O'Brien") "postgres" = "'O''Brien'" := by
  have hm := C7_value_formatter "mssql"
  have hp := C7_value_formatter "postgres"
  exact ⟨hm.1, (hm.2.2.2.1 42).trans (by decide),
    (hm.2.2.2.2.1 "O'Brien").trans (by decide),
    (hm.2.2.2.2.2.1 "\x7b\x22a\x22:1\x7d").trans (by decide),
    hm.2.1 false, hp.2.2.1 (by decide) true, hp.2.2.2.2.2.2⟩

/-- C10: the value formatter is total beyond the spec's closed variant: any
value that is none of null, boolean, number, string, or object (i.e.
`undefined`) falls through to the final branch and is formatted as
`String(val)` single-quoted with every quote doubled. -/
theorem C10_formatter_fallback (v : Value) (dbType : String)
    (h0 : v ≠ .vnull) (h1 : ∀ b, v ≠ .vbool b) (h2 : ∀ n, v ≠ .vnum n)
    (h3 : ∀ s, v ≠ .vstr s) (h4 : ∀ j, v ≠ .vjson j) :
    formatSqlValue v dbType = "'" ++ escQuotes (jsString v) ++ "'" := by
  cases v with
  | vnull => exact absurd rfl h0
  | vbool b => exact absurd rfl (h1 b)
  | vnum n => exact absurd rfl (h2 n)
  | vstr s => exact absurd rfl (h3 s)
  | vjson j => exact absurd rfl (h4 j)
  | vundefined => rfl

/-- C10 witness: `undefined` formats as `'undefined'` under any dialect. -/
theorem C10_formatter_fallback_witness :
    formatSqlValue .vundefined "postgres" = "'" ++ escQuotes (jsString .vundefined) ++ "'" :=
  C10_formatter_fallback .vundefined "postgres" (fun h => Value.noConfusion h)
    (fun _ h => Value.noConfusion h) (fun _ h => Value.noConfusion h)
    (fun _ h => Value.noConfusion h) (fun _ h => Value.noConfusion h)

/-- C5: update synthesis infers the new value's type from the original cell's
runtime type: numeric original + numeric-parsing text coerces to a number
(empty text to NULL); boolean original maps `"true"`/`"1"` to true and
`"false"`/`"0"` to false; otherwise the raw value passes through unchanged;
and the produced statement is exactly
`UPDATE <tableRef> SET <col> = <formatted> WHERE <full-row predicate>`,
so original `42` with new text `"43"` yields `SET c = 43` with a bare
numeric literal. -/
theorem C5_update_synthesis :
    (∀ (m n : Int) (s : String), jsParseNumber s = some n → trimChars s ≠ "" →
       coerceNewValue (.vnum m) (.vstr s) = .vnum n) ∧
    (∀ (m : Int) (s : String), trimChars s = "" →
       coerceNewValue (.vnum m) (.vstr s) = .vnull) ∧
    (∀ b : Bool,
       coerceNewValue (.vbool b) (.vstr "true") = .vbool true ∧
       coerceNewValue (.vbool b) (.vstr "1") = .vbool true ∧
       coerceNewValue (.vbool b) (.vstr "false") = .vbool false ∧
       coerceNewValue (.vbool b) (.vstr "0") = .vbool false) ∧
    (∀ (s : String) (nv : Value), coerceNewValue (.vstr s) nv = nv) ∧
    (∀ (j : String) (nv : Value), coerceNewValue (.vjson j) nv = nv) ∧
    (∀ (conns : List Connection) (tab : QueryTab) (row : List Value)
       (cols : List String) (i : Nat) (nv : Value),
       jsTruthy tab.tableName = true → jsTruthy tab.connName = true →
       updateCell conns tab row cols i nv =
         some ⟨tab.connName.getD "",
           "UPDATE " ++ tableRefOf tab.schema (tab.tableName.getD "")
           ++ " SET " ++ cols.getD i "undefined" ++ " = "
           ++ formatSqlValue (coerceNewValue (row.getD i .vundefined) nv)
                (resolveDbType conns (tab.connName.getD ""))
           ++ " WHERE " ++ constructWhereClause row cols
                (resolveDbType conns (tab.connName.getD ""))⟩) ∧
    updateCell [⟨"c", "postgres"⟩]
        { id := "t1", title := "t", query := "", results := none,
          error := none, connName := some "c", isExecuting := false,
          viewType := "data", tableName := some "t", schema := none,
          pagination := none, totalRows := none, sortState := none }
        [.vnum 42] ["c"] 0 (.vstr "43")
      = some ⟨"c", "UPDATE t SET c = 43 WHERE c = 42"⟩ := by
  refine ⟨?_, ?_, ?_, fun s nv => rfl, fun j nv => rfl, ?_, by decide⟩
  · intro m n s hp hne
    simp only [coerceNewValue, hp, if_neg hne]
  · intro m s h
    have hdata : (trimChars s).data = [] := by rw [h]
    simp only [coerceNewValue, jsParseNumber, hdata, Option.map_some, if_pos h]
  · intro b
    cases b
    · exact ⟨by decide, by decide, by decide, by decide⟩
    · exact ⟨by decide, by decide, by decide, by decide⟩
  · intro conns tab row cols i nv htn hcn
    simp [updateCell, htn, hcn]

/-- C5 witness at concrete inputs: the 42/"43" coercion and an update on a
tab with a usable table and connection. -/
theorem C5_update_synthesis_witness :
    coerceNewValue (.vnum 42) (.vstr "43") = .vnum 43 ∧
    coerceNewValue (.vnum 42) (.vstr "") = .vnull :=
  ⟨C5_update_synthesis.1 42 43 "43" (by decide) (by decide),
   C5_update_synthesis.2.1 42 "" (by decide)⟩

/-- C8: with a positive auto-limit, the limit rewriter rewrites exactly the
statements whose trimmed text starts (case-insensitively) with `SELECT` and
whose text contains neither `LIMIT` nor `TOP` (case-insensitively): eligible
mssql statements become `SELECT TOP <n> * FROM (<original>) AS subqb`, other
eligible statements get ` LIMIT <n>` appended to the trimmed text, and every
ineligible statement is left unchanged. -/
theorem C8_limit_rewriter (autoLimit : Int) (ct : Option String)
    (query : String) (hpos : autoLimit > 0) :
    (startsWithStr (upperStr (trimChars query)) "SELECT" = true →
     containsSub (upperStr query) "LIMIT" = false →
     containsSub (upperStr query) "TOP" = false →
       computeFinalSql autoLimit ct query =
         if ct = some "mssql" then
           "SELECT TOP " ++ toString autoLimit ++ " * FROM (" ++ query ++ ") AS subqb"
         else trimChars query ++ " LIMIT " ++ toString autoLimit) ∧
    (startsWithStr (upperStr (trimChars query)) "SELECT" = false →
       computeFinalSql autoLimit ct query = query) ∧
    (containsSub (upperStr query) "LIMIT" = true →
       computeFinalSql autoLimit ct query = query) ∧
    (containsSub (upperStr query) "TOP" = true →
       computeFinalSql autoLimit ct query = query) := by
  refine ⟨fun h1 h2 h3 => ?_, fun h1 => ?_, fun h2 => ?_, fun h3 => ?_⟩
  · simp [computeFinalSql, hpos, h1, h2, h3]
  · simp [computeFinalSql, h1]
  · simp [computeFinalSql, h2]
  · simp [computeFinalSql, h3]

/-- C8 witness: a plain `SELECT` is rewritten for postgres and for mssql, a
statement already carrying `LIMIT` is unchanged, and a non-`SELECT` statement
is unchanged. -/
theorem C8_limit_rewriter_witness :
    computeFinalSql 100 (some "postgres") "SELECT * FROM users"
      = "SELECT * FROM users LIMIT 100" ∧
    computeFinalSql 100 (some "mssql") "SELECT * FROM users"
      = "SELECT TOP 100 * FROM (SELECT * FROM users) AS subqb" ∧
    computeFinalSql 100 (some "postgres") "SELECT * FROM t LIMIT 50 OFFSET 0"
      = "SELECT * FROM t LIMIT 50 OFFSET 0" ∧
    computeFinalSql 100 (some "postgres") "UPDATE t SET x = 1"
      = "UPDATE t SET x = 1" := by
  refine ⟨?_, ?_, ?_, ?_⟩
  · have h := (C8_limit_rewriter 100 (some "postgres") "SELECT * FROM users"
      (by decide)).1 (by decide) (by decide) (by decide)
    simpa using h
  · have h := (C8_limit_rewriter 100 (some "mssql") "SELECT * FROM users"
      (by decide)).1 (by decide) (by decide) (by decide)
    simpa using h
  · exact (C8_limit_rewriter 100 (some "postgres")
      "SELECT * FROM t LIMIT 50 OFFSET 0" (by decide)).2.2.1 (by decide)
  · exact (C8_limit_rewriter 100 (some "postgres") "UPDATE t SET x = 1"
      (by decide)).2.1 (by decide)

/-- C1 counterexample: when the `SELECT COUNT(*)` fails (here with "boom"),
the windowed select is NOT issued (the call list holds only the count query),
no rows are installed, and the tab lands in the error state — refuting the
claim that count failure never blocks data display. -/
theorem C1_count_counterexample :
    handleTableClickLoad "t" none "c" "postgres" (.err "boom")
        (.ok ["id"] [[.vnum 1]])
      = ({ id := "new", title := "t", query := "SELECT * FROM t LIMIT 50 OFFSET 0",
           results := none, error := some "boom", connName := some "c",
           isExecuting := false, viewType := "data", tableName := some "t",
           schema := none, pagination := some ⟨50, 0, true, false⟩,
           totalRows := none, sortState := none },
         [⟨"c", "SELECT COUNT(*) as count FROM t"⟩]) := by decide

/-- C1 amended: the count fetch is not independent of the data fetch — both
run sequentially in a single try block, so a count failure aborts the load:
exactly one executor call is made (the count), the windowed select is never
issued, no rows are installed, `totalRows` stays unset, and the tab enters
the error state with the count error recorded. -/
theorem C1_count_failure_aborts (tn : String) (cs : Option String)
    (cn ct msg : String) (dataRes : ExecResult) :
    (handleTableClickLoad tn cs cn ct (.err msg) dataRes).2.length = 1 ∧
    (handleTableClickLoad tn cs cn ct (.err msg) dataRes).1.error = some msg ∧
    (handleTableClickLoad tn cs cn ct (.err msg) dataRes).1.results = none ∧
    (handleTableClickLoad tn cs cn ct (.err msg) dataRes).1.isExecuting = false ∧
    (handleTableClickLoad tn cs cn ct (.err msg) dataRes).1.totalRows = none := by
  simp [handleTableClickLoad]

/-- C2 counterexample: a tab whose execute is already in flight
(`isExecuting = true`) is run again, and `runQuery` issues another executor
call instead of no-oping. -/
theorem C2_executing_counterexample :
    runQueryStep 0 [⟨"c", "postgres"⟩] none
        { id := "t1", title := "q", query := "SELECT 1", results := none,
          error := none, connName := some "c", isExecuting := true,
          viewType := "query", tableName := none, schema := none,
          pagination := none, totalRows := none, sortState := none }
      = some ({ id := "t1", title := "q", query := "SELECT 1", results := none,
                error := none, connName := some "c", isExecuting := true,
                viewType := "query", tableName := none, schema := none,
                pagination := none, totalRows := none, sortState := none },
              ⟨"c", "SELECT 1"⟩) := by decide

/-- C2 amended: `runQuery` contains no `Executing` guard at all — whenever
the tab resolves a connection name it unconditionally marks the tab
executing, clears the error, and issues an executor call, even when
`isExecuting` is already true; per-tab serialization is not enforced. -/
theorem C2_no_executing_guard (autoLimit : Int) (conns : List Connection)
    (acn : Option String) (tab : QueryTab)
    (h : jsTruthy (jsOrStr tab.connName acn) = true) :
    runQueryStep autoLimit conns acn tab =
      some ({ tab with isExecuting := true, error := none },
        ⟨(jsOrStr tab.connName acn).getD "",
         computeFinalSql autoLimit
           ((conns.find? (fun c =>
             c.name = (jsOrStr tab.connName acn).getD "")).map (·.type))
           tab.query⟩) := by
  cases hm : jsOrStr tab.connName acn with
  | none => rw [hm] at h; exact absurd h (by simp [jsTruthy])
  | some name =>
    rw [hm] at h
    have hne : ¬ name = "" := by simpa [jsTruthy] using h
    simp [runQueryStep, hm, hne]

/-- C2 witness: the amended behavior at a concrete executing tab. -/
theorem C2_no_executing_guard_witness :
    runQueryStep 7 [⟨"db", "mysql"⟩] none
        { id := "t2", title := "q", query := "SELECT 2", results := none,
          error := none, connName := some "db", isExecuting := true,
          viewType := "query", tableName := none, schema := none,
          pagination := none, totalRows := none, sortState := none }
      = some ({ id := "t2", title := "q", query := "SELECT 2", results := none,
                error := none, connName := some "db", isExecuting := true,
                viewType := "query", tableName := none, schema := none,
                pagination := none, totalRows := none, sortState := none },
              ⟨"db", "SELECT 2 LIMIT 7"⟩) := by
  rw [C2_no_executing_guard 7 [⟨"db", "mysql"⟩] none _ (by decide)]
  decide

/-- C4 counterexample: a Browse/data-mode tab (mssql windowed statement,
`viewType = "data"`) is executed and its statement IS passed through the
limit rewriter: the submitted SQL is the `SELECT TOP ... AS subqb` wrap, not
the tab's own statement. -/
theorem C4_data_tab_counterexample :
    (runQueryStep 100 [⟨"c", "mssql"⟩] none
        { id := "t1", title := "t", query := "SELECT * FROM t ORDER BY (SELECT NULL) OFFSET 0 ROWS FETCH NEXT 50 ROWS ONLY",
          results := none, error := none, connName := some "c",
          isExecuting := false, viewType := "data", tableName := some "t",
          schema := none, pagination := some ⟨50, 0, true, false⟩,
          totalRows := none, sortState := none }).map (fun p => p.2.sql)
      = some "SELECT TOP 100 * FROM (SELECT * FROM t ORDER BY (SELECT NULL) OFFSET 0 ROWS FETCH NEXT 50 ROWS ONLY) AS subqb" := by
  decide

/-- C4 amended: the auto-limit rewrite is applied to every tab's statement
regardless of its view mode — `runQuery` never consults `viewType`, so a
Browse/data-mode statement goes through the limit rewriter exactly like a
Query-mode one (postgres/mysql browse statements escape rewriting only
because they contain `LIMIT`; mssql windowed statements get wrapped). -/
theorem C4_rewrite_mode_blind (autoLimit : Int) (conns : List Connection)
    (acn : Option String) (tab : QueryTab) (v : String) :
    runQueryStep autoLimit conns acn { tab with viewType := v }
      = (runQueryStep autoLimit conns acn tab).map
          (fun p => ({ p.1 with viewType := v }, p.2)) := by
  cases hm : jsOrStr tab.connName acn with
  | none => simp [runQueryStep, hm]
  | some name =>
    by_cases hn : name = "" <;> simp [runQueryStep, hm, hn]

/-- C3 counterexample: a tab whose pagination has `hasMore = false` is load-
more'd, and instead of a no-op the windowed select at the next offset is
issued and its rows are appended (pagination advances). -/
theorem C3_loadmore_counterexample :
    handleLoadMore [⟨"c", "postgres"⟩]
        { id := "t1", title := "t", query := "", results := some ⟨["id"], [[.vnum 1]]⟩,
          error := none, connName := some "c", isExecuting := false,
          viewType := "data", tableName := some "t", schema := none,
          pagination := some ⟨50, 0, false, false⟩,
          totalRows := none, sortState := none }
        (.ok ["id"] [[.vnum 2]])
      = ({ id := "t1", title := "t", query := "",
           results := some ⟨["id"], [[.vnum 1], [.vnum 2]]⟩,
           error := none, connName := some "c", isExecuting := false,
           viewType := "data", tableName := some "t", schema := none,
           pagination := some ⟨50, 50, false, false⟩,
           totalRows := none, sortState := none },
         some ⟨"c", "SELECT * FROM t LIMIT 50 OFFSET 50"⟩) := by decide

/-- C3 amended: the `isLoading || !hasMore` guard only gates setting the
`isLoading` flag; the fetch itself is not guarded. Whenever the tab has
pagination, a truthy connection name and table name, and its connection
resolves, `loadMore` issues the windowed select at `offset + limit` and, on
success, appends the returned rows and advances the pagination — even when
`isLoading` is true or `hasMore` is false. -/
theorem C3_loadmore_not_guarded (conns : List Connection) (tab : QueryTab)
    (p : Pagination) (conn : Connection) (cols : List String)
    (rows : List (List Value))
    (hp : tab.pagination = some p)
    (hc : jsTruthy tab.connName = true) (ht : jsTruthy tab.tableName = true)
    (hf : conns.find? (fun c => c.name = tab.connName.getD "") = some conn) :
    (handleLoadMore conns tab (.ok cols rows)).2
      = some ⟨tab.connName.getD "",
          constructSelectQuery (tab.tableName.getD "") conn.type p.limit
            (p.offset + p.limit) tab.schema⟩ ∧
    (handleLoadMore conns tab (.ok cols rows)).1.pagination
      = some ⟨p.limit, p.offset + p.limit, (rows.length : Int) = p.limit, false⟩ ∧
    (handleLoadMore conns tab (.ok cols rows)).1.results
      = some (match tab.results with
              | some r => ResultSet.mk r.columns (r.rows ++ rows)
              | none => ResultSet.mk cols rows) := by
  unfold handleLoadMore
  rw [hp]
  simp only [hc, ht, hf]
  split
  · simp_all
  · split <;> simp

/-- C3 witness: the amended behavior at a concrete tab whose pagination is
already loading (`isLoading = true`). -/
theorem C3_loadmore_not_guarded_witness :
    (handleLoadMore [⟨"c", "postgres"⟩]
        { id := "t9", title := "t", query := "", results := none,
          error := none, connName := some "c", isExecuting := false,
          viewType := "data", tableName := some "t", schema := none,
          pagination := some ⟨50, 0, true, true⟩,
          totalRows := none, sortState := none }
        (.ok ["id"] [[.vnum 3]])).2
      = some ⟨"c", "SELECT * FROM t LIMIT 50 OFFSET 50"⟩ := by
  have h := (C3_loadmore_not_guarded [⟨"c", "postgres"⟩]
    { id := "t9", title := "t", query := "", results := none,
      error := none, connName := some "c", isExecuting := false,
      viewType := "data", tableName := some "t", schema := none,
      pagination := some ⟨50, 0, true, true⟩,
      totalRows := none, sortState := none }
    ⟨50, 0, true, true⟩ ⟨"c", "postgres"⟩ ["id"] [[.vnum 3]]
    rfl (by decide) (by decide) rfl).1
  rw [h]
  decide

theorem isNumKey_exists {colIdx : Nat} {r : List Value}
    (h : isNumKey colIdx r = true) :
    ∃ n, r.getD colIdx .vundefined = Value.vnum n := by
  unfold isNumKey at h
  cases hv : r.getD colIdx .vundefined <;> rw [hv] at h <;> simp_all

theorem sortCmp_num {colIdx : Nat} {dir : String} {a b : List Value}
    {x y : Int} (hx : a.getD colIdx .vundefined = .vnum x)
    (hy : b.getD colIdx .vundefined = .vnum y) :
    sortCmp colIdx dir a b = if dir = "asc" then x - y else y - x := by
  simp only [sortCmp]
  rw [hx, hy]
  by_cases hxy : x = y
  · subst hxy
    simp
  · simp [hxy]

theorem attachWith_sublist {α : Type _} {P : α → Prop} {c l : List α}
    (hsub : List.Sublist c l) :
    ∀ (hc : ∀ x ∈ c, P x) (hl : ∀ x ∈ l, P x),
      List.Sublist (c.attachWith P hc) (l.attachWith P hl) := by
  induction hsub with
  | slnil => intro hc hl; simp
  | cons a hs ih =>
    intro hc hl
    rw [List.attachWith_cons]
    exact (ih hc (fun x hx => hl x (List.mem_cons_of_mem _ hx))).cons _
  | cons₂ a hs ih =>
    intro hc hl
    rw [List.attachWith_cons, List.attachWith_cons]
    exact (ih (fun x hx => hc x (List.mem_cons_of_mem _ hx))
      (fun x hx => hl x (List.mem_cons_of_mem _ hx))).cons₂ _

/-- C9 counterexample: with mixed numeric/string keys the comparator is not
transitive (here `9 < 10` numerically, `"10" < "2"` and `"2" < "9"` as
strings), and under the stable merge-sort model of `Array.prototype.sort`
both halves of the claim fail: re-sorting the sorted result of
`[["2"],[9],[10]]` changes it again, and the tied pair `["5"]`,`[5]`
(equal keys, comparator 0) has its original relative order reversed by
sorting `[["5"],[10],[5]]`. -/
theorem C9_sort_counterexample :
    sortRows (sortRows [[Value.vstr "2"], [Value.vnum 9], [Value.vnum 10]]
        ["x"] (some ⟨"x", "asc"⟩)) ["x"] (some ⟨"x", "asc"⟩)
      ≠ sortRows [[Value.vstr "2"], [Value.vnum 9], [Value.vnum 10]]
        ["x"] (some ⟨"x", "asc"⟩) ∧
    sortCmp 0 "asc" [Value.vstr "5"] [Value.vnum 5] = 0 ∧
    List.Sublist [[Value.vstr "5"], [Value.vnum 5]]
      [[Value.vstr "5"], [Value.vnum 10], [Value.vnum 5]] ∧
    ¬ List.Sublist [[Value.vstr "5"], [Value.vnum 5]]
        (sortRows [[Value.vstr "5"], [Value.vnum 10], [Value.vnum 5]]
          ["x"] (some ⟨"x", "asc"⟩)) := by
  refine ⟨?_, by decide, by decide, ?_⟩
  · simp +decide [sortRows, sortRowsAt, List.mergeSort, List.merge, sortCmp,
      jsString, lowerStr, ltStr, ltListChar, List.findIdx?]
  · have hev : sortRows [[Value.vstr "5"], [Value.vnum 10], [Value.vnum 5]]
        ["x"] (some ⟨"x", "asc"⟩)
        = [[Value.vnum 5], [Value.vnum 10], [Value.vstr "5"]] := by
      simp +decide [sortRows, sortRowsAt, List.mergeSort, List.merge, sortCmp,
        jsString, lowerStr, ltStr, ltListChar, List.findIdx?]
    rw [hev]
    decide

/-- C9 amended: restricted to row lists whose sort-key values are all
numeric (where the comparator is a total preorder), the display sort is
stable — a tied pair (comparator 0) that occurs as a sublist of the input
still occurs, in the same order, in the output — and idempotent: re-sorting
the sorted result with the same sort state leaves it unchanged. For mixed
numeric/string keys the comparator is not transitive and both properties can
fail. -/
theorem C9_sort_stable_idempotent_numeric (colIdx : Nat) (dir : String)
    (rows : List (List Value))
    (hnum : ∀ r ∈ rows, isNumKey colIdx r = true) :
    (∀ a b, sortCmp colIdx dir a b = 0 → List.Sublist [a, b] rows →
       List.Sublist [a, b] (sortRowsAt colIdx dir rows)) ∧
    sortRowsAt colIdx dir (sortRowsAt colIdx dir rows)
      = sortRowsAt colIdx dir rows := by
  classical
  set P : List Value → Prop := fun r => isNumKey colIdx r = true with hP
  set le' : {r // P r} → {r // P r} → Bool :=
    fun a b => decide (sortCmp colIdx dir a.1 b.1 ≤ 0) with hle'
  have trans' : ∀ a b c, le' a b → le' b c → le' a c := by
    rintro ⟨a, pa⟩ ⟨b, pb⟩ ⟨c, pc⟩ hab hbc
    obtain ⟨x, hx⟩ := isNumKey_exists pa
    obtain ⟨y, hy⟩ := isNumKey_exists pb
    obtain ⟨z, hz⟩ := isNumKey_exists pc
    simp only [hle', decide_eq_true_eq, sortCmp_num hx hy, sortCmp_num hy hz,
      sortCmp_num hx hz] at *
    by_cases hdir : dir = "asc" <;> simp [hdir] at * <;> omega
  have total' : ∀ a b, le' a b || le' b a := by
    rintro ⟨a, pa⟩ ⟨b, pb⟩
    obtain ⟨x, hx⟩ := isNumKey_exists pa
    obtain ⟨y, hy⟩ := isNumKey_exists pb
    simp only [hle', Bool.or_eq_true, decide_eq_true_eq, sortCmp_num hx hy,
      sortCmp_num hy hx]
    by_cases hdir : dir = "asc" <;> simp [hdir] <;> omega
  have hmapval : (rows.attachWith P hnum).map Subtype.val = rows :=
    List.attachWith_map_subtype_val rows hnum
  have key : ((rows.attachWith P hnum).mergeSort le').map Subtype.val
      = sortRowsAt colIdx dir rows := by
    rw [List.map_mergeSort (s := fun a b => decide (sortCmp colIdx dir a b ≤ 0))
      (fun a _ b _ => rfl), hmapval]
    rfl
  constructor
  · intro a b hab hsub
    have pa : P a := hnum a (hsub.subset (by simp))
    have pb : P b := hnum b (hsub.subset (by simp))
    have hcab : ∀ x ∈ [a, b], P x := by
      intro x hx
      rcases List.mem_cons.mp hx with h1 | h1
      · subst h1; exact pa
      · rw [List.mem_singleton] at h1; subst h1; exact pb
    have hpair : List.Sublist [(⟨a, pa⟩ : {r // P r}), ⟨b, pb⟩]
        (rows.attachWith P hnum) := by
      have := attachWith_sublist hsub hcab hnum
      simpa [List.attachWith_cons] using this
    have hle : le' ⟨a, pa⟩ ⟨b, pb⟩ = true := by
      simp [hle', hab]
    have hm := List.pair_sublist_mergeSort trans' total' hle hpair
    have hmapped := hm.map Subtype.val
    rw [key] at hmapped
    simpa using hmapped
  · have hsorted := List.sorted_mergeSort trans' total' (rows.attachWith P hnum)
    have hpw : (sortRowsAt colIdx dir rows).Pairwise
        (fun a b => decide (sortCmp colIdx dir a b ≤ 0) = true) := by
      rw [← key]
      exact List.pairwise_map.mpr (hsorted.imp (fun h => h))
    exact List.mergeSort_of_sorted hpw

/-- C9 witness: the spec's tie example `[(1,"b"),(1,"a")]` has all-numeric
first-column keys; the tied pair keeps its order and re-sorting is the
identity. -/
theorem C9_sort_numeric_witness :
    List.Sublist [[Value.vnum 1, Value.vstr "b"], [Value.vnum 1, Value.vstr "a"]]
      (sortRowsAt 0 "asc"
        [[Value.vnum 1, Value.vstr "b"], [Value.vnum 1, Value.vstr "a"]]) ∧
    sortRowsAt 0 "asc" (sortRowsAt 0 "asc"
        [[Value.vnum 1, Value.vstr "b"], [Value.vnum 1, Value.vstr "a"]])
      = sortRowsAt 0 "asc"
        [[Value.vnum 1, Value.vstr "b"], [Value.vnum 1, Value.vstr "a"]] := by
  have h := C9_sort_stable_idempotent_numeric 0 "asc"
    [[Value.vnum 1, Value.vstr "b"], [Value.vnum 1, Value.vstr "a"]]
    (by decide)
  exact ⟨h.1 [Value.vnum 1, Value.vstr "b"] [Value.vnum 1, Value.vstr "a"]
    (by decide) (List.Sublist.refl _), h.2⟩

end Dbms
